import Mathlib

set_option linter.unusedVariables false

/-! Shallow embedding of the two source files of this repository,
`rocketmq-common/src/utils/util_all.rs` and
`rocketmq-namesrv/src/processor/client_request_processor.rs`, together
with theorems settling the specified properties.

Conventions of the embedding: Rust `u8` byte values are `Nat` values
constrained to `< 256`; Rust strings are `List Char` (every string these
functions touch is ASCII, where Rust's byte length and char count
coincide); `u64`/`i64` become `Nat`/`Int`; fallible Rust code returns
`Option`, and a Rust `panic` (`expect`/`unwrap` on an empty value) is
modelled as the result `none` of the embedded function. -/

/-! ### util_all.rs: hex encoding -/

/-- The constant `HEX_ARRAY` of `util_all.rs`: the sixteen uppercase
hexadecimal digit characters. -/
def HEX_ARRAY : List Char :=
  ['0', '1', '2', '3', '4', '5', '6', '7', '8', '9', 'A', 'B', 'C', 'D', 'E', 'F']

/-- `bytes_to_string` of `util_all.rs`: for each byte push
`HEX_ARRAY[v >> 4]` and `HEX_ARRAY[v & 0x0F]`.  Indices are below 16 for
every `u8` input, so the `getD` default is never consulted on the
function's real domain. -/
def bytes_to_string : List Nat → List Char
  | [] => []
  | byte :: rest =>
    HEX_ARRAY.getD (byte >>> 4) '0' :: HEX_ARRAY.getD (byte &&& 0x0F) '0' :: bytes_to_string rest

/-- `char_to_byte` of `util_all.rs`: the index of `c` in
`"0123456789ABCDEF"` (`str::find`), with `unwrap_or(0)` for characters
that do not occur. -/
def char_to_byte (c : Char) : Nat :=
  (List.findIdx? (fun x => x == c) "0123456789ABCDEF".toList).getD 0

/-- The `for i in 0..length` loop of `string_to_bytes`: at iteration `i`
it reads the characters at positions `i * 2` and `i * 2 + 1`
(`chars().nth(pos)?`, whose failure aborts the whole function with
`None`) and pushes `char_to_byte c1 << 4 | char_to_byte c2`. -/
def string_to_bytes_loop (up : List Char) : Nat → Nat → Option (List Nat)
  | _, 0 => some []
  | i, Nat.succ k =>
    match up.get? (i * 2), up.get? (i * 2 + 1) with
    | some c1, some c2 =>
      (string_to_bytes_loop up (i + 1) k).map
        (fun rest => (char_to_byte c1 <<< 4 ||| char_to_byte c2) :: rest)
    | _, _ => none

/-- `string_to_bytes` of `util_all.rs`: `None` on the empty string,
otherwise uppercase the input and decode `len / 2` hex pairs.
(`String::len` counts bytes in Rust; on the ASCII strings produced by
`bytes_to_string` it coincides with the char count used here, and
`to_uppercase` is the per-char ASCII uppercasing.) -/
def string_to_bytes (hex_string : List Char) : Option (List Nat) :=
  if hex_string.isEmpty then none
  else
    let up := hex_string.map Char.toUpper
    string_to_bytes_loop up 0 (up.length / 2)

/-! ### util_all.rs: decimal formatting -/

/-- The decimal digits of `n`, most significant first, written with
explicit fuel (`fuel ≥ n` suffices) so that the definition is
structurally recursive and kernel-computable.  Returns `[]` for `n = 0`. -/
def decimalReprAux : Nat → Nat → List Char
  | 0, _ => []
  | fuel + 1, n =>
    if n = 0 then []
    else decimalReprAux fuel (n / 10) ++ [Char.ofNat (48 + n % 10)]

/-- The decimal representation of a natural number, as printed by Rust's
`{}`/`{:020}` formatting: `"0"` for zero, otherwise the digits most
significant first with no leading zeros. -/
def decimalRepr (n : Nat) : List Char :=
  if n = 0 then ['0'] else decimalReprAux n n

/-- `offset_to_file_name` of `util_all.rs`: `format!("{:020}", offset)`,
i.e. the decimal representation left-padded with `'0'` to width 20
(never truncated). -/
def offset_to_file_name (offset : Nat) : List Char :=
  List.replicate (20 - (decimalRepr offset).length) '0' ++ decimalRepr offset

/-- Zero-padding to a given width, as Rust's `{:0w}` formatting. -/
def padNum (w n : Nat) : List Char :=
  List.replicate (w - (decimalRepr n).length) '0' ++ decimalRepr n

/-! ### util_all.rs: time_millis_to_human_string

`time_millis_to_human_string` calls chrono's
`DateTime::<Utc>::from_timestamp_millis` (an `Option`, `None` when the
instant falls outside chrono's representable year range), `unwrap`s it,
and formats with `%Y%m%d%H%M%S%3f`.  chrono is a third-party crate; its
documented calendar behaviour (proleptic Gregorian, years `-262144` to
`262143` representable) is embedded below with the standard
days-to-civil-date algorithm. -/

/-- Proleptic-Gregorian civil date `(year, month, day)` from a count of
days since 1970-01-01, the calendar computation underlying chrono's UTC
date handling. -/
def civil_from_days (days : Int) : Int × Nat × Nat :=
  let z : Int := days + 719468
  let era : Int := Int.ediv z 146097
  let doe : Nat := (z - era * 146097).toNat
  let yoe : Nat := (doe - doe / 1460 + doe / 36524 - doe / 146096) / 365
  let doy : Nat := doe - (365 * yoe + yoe / 4 - yoe / 100)
  let mp : Nat := (5 * doy + 2) / 153
  let d : Nat := doy - (153 * mp + 2) / 5 + 1
  let m : Nat := if mp < 10 then mp + 3 else mp - 9
  let y : Int := (yoe : Int) + era * 400 + (if m ≤ 2 then 1 else 0)
  (y, m, d)

/-- Split a UTC millisecond timestamp into
`(year, month, day, hour, minute, second, millisecond)`, flooring
toward minus infinity as chrono does (so `-1` ms is
`1969-12-31T23:59:59.999`). -/
def time_millis_to_civil (t : Int) : Int × Nat × Nat × Nat × Nat × Nat × Nat :=
  let ms : Nat := (Int.emod t 1000).toNat
  let secs : Int := Int.ediv t 1000
  let days : Int := Int.ediv secs 86400
  let sod : Nat := (Int.emod secs 86400).toNat
  match civil_from_days days with
  | (y, m, d) => (y, m, d, sod / 3600, sod % 3600 / 60, sod % 60, ms)

/-- The civil year a millisecond timestamp falls in. -/
def chrono_year (t : Int) : Int :=
  (time_millis_to_civil t).1

/-- chrono's `%Y` field: the full year zero-padded to four digits, with
a leading minus sign for negative years. -/
def yearChars (y : Int) : List Char :=
  if y < 0 then '-' :: padNum 4 (-y).toNat else padNum 4 y.toNat

/-- The `%Y%m%d%H%M%S%3f` rendering of a millisecond timestamp. -/
def time_millis_format (t : Int) : List Char :=
  match time_millis_to_civil t with
  | (y, m, d, hh, mm, ss, ms) =>
    yearChars y ++ padNum 2 m ++ padNum 2 d ++ padNum 2 hh ++ padNum 2 mm ++ padNum 2 ss ++
      padNum 3 ms

/-- chrono's `DateTime::<Utc>::from_timestamp_millis`: `Some` exactly
when the instant's year lies in chrono's representable range `-262144`
to `262143`; the datetime value is represented by the timestamp itself. -/
def from_timestamp_millis (t : Int) : Option Int :=
  if -262144 ≤ chrono_year t ∧ chrono_year t ≤ 262143 then some t else none

/-- `time_millis_to_human_string` of `util_all.rs`:
`DateTime::<Utc>::from_timestamp_millis(t)`, then `unwrap` (modelled by
`none` when the inner `Option` is empty — the Rust code panics there),
then `%Y%m%d%H%M%S%3f` formatting. -/
def time_millis_to_human_string (t : Int) : Option (List Char) :=
  (from_timestamp_millis t).map (fun dt => time_millis_format dt)

/-! ### client_request_processor.rs

`ClientRequestProcessor::get_route_info_by_topic` is embedded as a pure
function.  Its collaborators live in other crates of this repository
that are not under `src/`, so they enter the embedding as follows: the
current clock reading (`TimeUtils::get_current_millis`) is the explicit
argument `now`; `RouteInfoManager::pickup_topic_route_data` and
`KVConfigManager::get_kvconfig` are oracle functions quantified over in
the theorems; the remaining fixed data shapes are modelled from the
spec below. -/

/-- Modelled from the spec: the configuration surface consumed by the
processor (`NamesrvConfig`, crate `rocketmq-common`, not under `src/`) —
whether warm-up gating is enabled, the warm-up window length in seconds,
and whether order-message routing is enabled. -/
structure NamesrvConfig where
  need_wait_for_service : Bool
  wait_seconds_for_service : Nat
  order_message_enable : Bool
  deriving DecidableEq

/-- The mutable readiness state of `ClientRequestProcessor`: the
one-way `need_check_namesrv_ready` flag (an `AtomicBool`, initially
`true`) and the process start timestamp captured at construction. -/
structure ClientRequestProcessorState where
  need_check_namesrv_ready : Bool
  startup_time_millis : Nat
  deriving DecidableEq

/-- Modelled from the spec: the decoded route-query request header
(`GetRouteInfoRequestHeader`, crate `rocketmq-remoting`, not under
`src/`): the topic name being looked up. -/
structure GetRouteInfoRequestHeader where
  topic : List Char
  deriving DecidableEq

/-- Modelled from the spec: one `QueueData` record of the topology
store (crate `rocketmq-remoting`, not under `src/`): hosting
broker-group name, read/write queue counts, permission flags. -/
structure QueueData where
  broker_name : List Char
  read_queue_nums : Nat
  write_queue_nums : Nat
  perm : Nat
  deriving DecidableEq

/-- Modelled from the spec: the `TopicRouteData` query result (crate
`rocketmq-remoting`, not under `src/`): QueueData list, BrokerData
list, order-topic annotation field, filter-server map. -/
structure TopicRouteData where
  order_topic_conf : Option (List Char)
  queue_datas : List QueueData
  broker_datas : List (List Char × List (List Char))
  filter_server_table : List (List Char × List (List Char))
  deriving DecidableEq

/-- Modelled from the spec: the outbound response value
(`RemotingCommand`, crate `rocketmq-remoting`, not under `src/`): a
protocol response code, an optional human-readable remark, and an
optional route-data body (the wire encoding itself is out of scope, so
the body carries the route data directly). -/
structure RemotingCommand where
  code : Nat
  remark : Option (List Char)
  body : Option TopicRouteData
  deriving DecidableEq

/-- Modelled from the spec: `RemotingSysResponseCode::Success` (crate
`rocketmq-remoting`, not under `src/`). -/
def RemotingSysResponseCode.Success : Nat := 0

/-- Modelled from the spec: `RemotingSysResponseCode::SystemError`
(crate `rocketmq-remoting`, not under `src/`), the code carrying the
distinguished service-not-ready signal. -/
def RemotingSysResponseCode.SystemError : Nat := 1

/-- Modelled from the spec: `ResponseCode::TopicNotExist` (crate
`rocketmq-remoting`, not under `src/`), the code carrying the
distinguished topic-not-found signal — distinct from
`RemotingSysResponseCode::SystemError`. -/
def ResponseCode.TopicNotExist : Nat := 17

/-- `RemotingCommand::create_response_command_with_code`. -/
def RemotingCommand.create_response_command_with_code (c : Nat) : RemotingCommand :=
  ⟨c, none, none⟩

/-- `RemotingCommand::set_remark`. -/
def RemotingCommand.set_remark (cmd : RemotingCommand) (r : List Char) : RemotingCommand :=
  ⟨cmd.code, some r, cmd.body⟩

/-- `RemotingCommand::set_body` (body modelled as the un-encoded route
data, the wire encoding being out of scope). -/
def RemotingCommand.set_body (cmd : RemotingCommand) (b : TopicRouteData) : RemotingCommand :=
  ⟨cmd.code, cmd.remark, some b⟩

/-- Modelled from the spec: `NAMESPACE_ORDER_TOPIC_CONFIG` (module
`processor` of `rocketmq-namesrv`, not under `src/`), the namespace key
under which the order-topic overlay is stored. -/
def NAMESPACE_ORDER_TOPIC_CONFIG : List Char := "ORDER_TOPIC_CONFIG".toList

/-- Modelled from the spec: `FAQUrl::APPLY_TOPIC_URL` (crate
`rocketmq-common`, not under `src/`), the help-link token naming the
apply-topic administrative action. -/
def FAQUrl.APPLY_TOPIC_URL : List Char := "apply-topic".toList

/-- Modelled from the spec: `FAQUrl::suggest_todo` (crate
`rocketmq-common`, not under `src/`), wrapping a help-link token into a
suggestion appended to a diagnostic string. -/
def FAQUrl.suggest_todo (url : List Char) : List Char :=
  " See ".toList ++ url ++ " for further details.".toList

/-- Lines 68-71 of `client_request_processor.rs`: `namesrv_ready` is
the readiness flag AND-ed with whether the elapsed time since startup
has reached the warm-up window
(`Duration::from_secs(wait_seconds_for_service).as_millis()`
milliseconds). -/
def namesrv_ready (cfg : NamesrvConfig) (st : ClientRequestProcessorState) (now : Nat) : Bool :=
  st.need_check_namesrv_ready &&
    decide (cfg.wait_seconds_for_service * 1000 ≤ now - st.startup_time_millis)

/-- Line 72 of `client_request_processor.rs`: the readiness gate
intercepts the query when `need_wait_for_service && !namesrv_ready`. -/
def gate_intercepts (cfg : NamesrvConfig) (st : ClientRequestProcessorState) (now : Nat) : Bool :=
  cfg.need_wait_for_service && !(namesrv_ready cfg st now)

/-- `ClientRequestProcessor::get_route_info_by_topic`.  `request` is the
result of `decode_command_custom_header` (an undecodable header is
`none`, on which the Rust `.expect` panics — modelled by the overall
result `none`).  On the happy paths the function returns the response
command together with the processor state after the query. -/
def get_route_info_by_topic (cfg : NamesrvConfig) (st : ClientRequestProcessorState) (now : Nat)
    (pickup_topic_route_data : List Char → Option TopicRouteData)
    (get_kvconfig : List Char → List Char → Option (List Char))
    (request : Option GetRouteInfoRequestHeader) :
    Option (RemotingCommand × ClientRequestProcessorState) :=
  match request with
  | none => none
  | some request_header =>
    if gate_intercepts cfg st now then
      some ((RemotingCommand.create_response_command_with_code
          RemotingSysResponseCode.SystemError).set_remark
          ("name remoting_server not ready".toList), st)
    else
      match pickup_topic_route_data request_header.topic with
      | none =>
        some ((RemotingCommand.create_response_command_with_code
            ResponseCode.TopicNotExist).set_remark
            ("No topic route info in name remoting_server for the topic:".toList ++
              request_header.topic ++ FAQUrl.suggest_todo FAQUrl.APPLY_TOPIC_URL), st)
      | some topic_route_data =>
        let st' : ClientRequestProcessorState :=
          if st.need_check_namesrv_ready then ⟨false, st.startup_time_millis⟩ else st
        let topic_route_data :=
          if cfg.order_message_enable then
            { topic_route_data with
              order_topic_conf := get_kvconfig NAMESPACE_ORDER_TOPIC_CONFIG request_header.topic }
          else topic_route_data
        some ((RemotingCommand.create_response_command_with_code
            RemotingSysResponseCode.Success).set_body topic_route_data, st')

/-! ### Helper lemmas -/

set_option maxHeartbeats 1000000 in
set_option maxRecDepth 10000 in
/-- For every byte, the two hex digits emitted by `bytes_to_string` are
fixed by uppercasing, and `char_to_byte c1 << 4 | char_to_byte c2`
recovers the byte. -/
theorem hex_pair_inverse : ∀ v : Nat, v < 256 →
    Char.toUpper (HEX_ARRAY.getD (v >>> 4) '0') = HEX_ARRAY.getD (v >>> 4) '0' ∧
    Char.toUpper (HEX_ARRAY.getD (v &&& 0x0F) '0') = HEX_ARRAY.getD (v &&& 0x0F) '0' ∧
    (char_to_byte (HEX_ARRAY.getD (v >>> 4) '0') <<< 4 |||
        char_to_byte (HEX_ARRAY.getD (v &&& 0x0F) '0')) = v := by
  decide

theorem bytes_to_string_length (src : List Nat) :
    (bytes_to_string src).length = 2 * src.length := by
  induction src with
  | nil => rfl
  | cons b rest ih => simp [bytes_to_string, ih]; omega

theorem hex_digit_mem : ∀ d : Nat, d < 16 → HEX_ARRAY.getD d '0' ∈ HEX_ARRAY := by
  decide

theorem bytes_to_string_mem (src : List Nat) (hb : ∀ b ∈ src, b < 256) :
    ∀ c ∈ bytes_to_string src, c ∈ HEX_ARRAY := by
  induction src with
  | nil => intro c hc; simp [bytes_to_string] at hc
  | cons b rest ih =>
    intro c hc
    have hb0 : b < 256 := hb b (by simp)
    have hhi : b >>> 4 < 16 := by
      rw [Nat.shiftRight_eq_div_pow]
      omega
    have hlo : b &&& 0x0F < 16 := Nat.lt_succ_of_le (Nat.and_le_right)
    simp only [bytes_to_string, List.mem_cons] at hc
    rcases hc with h | h | h
    · exact h ▸ hex_digit_mem _ hhi
    · exact h ▸ hex_digit_mem _ hlo
    · exact ih (fun x hx => hb x (by simp [hx])) c h

theorem bytes_to_string_upper (src : List Nat) (hb : ∀ b ∈ src, b < 256) :
    (bytes_to_string src).map Char.toUpper = bytes_to_string src := by
  induction src with
  | nil => rfl
  | cons b rest ih =>
    have hb0 : b < 256 := hb b (by simp)
    obtain ⟨h1, h2, _⟩ := hex_pair_inverse b hb0
    simp only [bytes_to_string, List.map_cons, h1, h2, List.cons.injEq, true_and]
    exact ih (fun x hx => hb x (by simp [hx]))

theorem string_to_bytes_loop_inverse :
    ∀ (src : List Nat) (i : Nat) (up : List Char),
      (∀ b ∈ src, b < 256) →
      (∀ j, j < 2 * src.length → up.get? (i * 2 + j) = (bytes_to_string src).get? j) →
      string_to_bytes_loop up i src.length = some src := by
  intro src
  induction src with
  | nil => intro i up _ _; rfl
  | cons b rest ih =>
    intro i up hb hget
    have hb0 : b < 256 := hb b (by simp)
    have h0 := hget 0 (by simp)
    have h1 := hget 1 (by simp only [List.length_cons]; omega)
    simp only [Nat.add_zero] at h0
    simp only [bytes_to_string, List.get?_cons_zero, List.get?_cons_succ] at h0 h1
    show string_to_bytes_loop up i (rest.length + 1) = some (b :: rest)
    have hrest : string_to_bytes_loop up (i + 1) rest.length = some rest := by
      apply ih (i + 1) up (fun x hx => hb x (by simp [hx]))
      intro j hj
      have harith : (i + 1) * 2 + j = i * 2 + (j + 2) := by ring
      rw [harith, hget (j + 2) (by simpa using by omega)]
      simp [bytes_to_string, List.get?_cons_succ]
    simp only [string_to_bytes_loop, h0, h1, hrest]
    obtain ⟨_, _, h3⟩ := hex_pair_inverse b hb0
    rw [h3]
    rfl
theorem decimalReprAux_length : ∀ (fuel n k : Nat), n ≤ fuel → n < 10 ^ k →
    (decimalReprAux fuel n).length ≤ k := by
  intro fuel
  induction fuel with
  | zero =>
    intro n k hn _
    have h0 : n = 0 := by omega
    subst h0
    simp [decimalReprAux]
  | succ fuel ih =>
    intro n k hn hk
    by_cases h0 : n = 0
    · simp [decimalReprAux, h0]
    · cases k with
      | zero => simp at hk; omega
      | succ k =>
        have hdiv_le : n / 10 ≤ fuel := by
          have : n / 10 < n := Nat.div_lt_self (Nat.pos_of_ne_zero h0) (by omega)
          omega
        have hdiv_lt : n / 10 < 10 ^ k := by
          rw [Nat.div_lt_iff_lt_mul (by omega)]
          calc n < 10 ^ (k + 1) := hk
            _ = 10 ^ k * 10 := by ring
        have hrec := ih (n / 10) k hdiv_le hdiv_lt
        simp [decimalReprAux, h0, List.length_append]
        omega

theorem decimalRepr_length_le (n : Nat) (h : n < 10 ^ 20) : (decimalRepr n).length ≤ 20 := by
  unfold decimalRepr
  by_cases h0 : n = 0
  · simp [h0]
  · simp only [h0, if_false]
    exact decimalReprAux_length n n 20 (Nat.le_refl n) h
/-! ### Claim theorems -/

/-- C1: the claim asserts that once the Readiness Gate has cleared no
subsequent query returns the service-not-ready response.  The code
violates this: `namesrv_ready` is computed as
`need_check_namesrv_ready && elapsed >= window`, so after the flag is
cleared (which happens on the first query whose topology lookup finds a
route) `namesrv_ready` is `false` forever, and with warm-up gating
enabled every later query is answered with the `SystemError`
service-not-ready response.  Concretely with a ten-second window: a
query at 11 s finds its route (`Success`) and clears the flag; the same
query at 12 s is then answered service-not-ready. -/
theorem readiness_latch_violation :
    get_route_info_by_topic ⟨true, 10, false⟩ ⟨true, 0⟩ 11000
        (fun _ => some ⟨none, [], [], []⟩) (fun _ _ => none) (some ⟨"orders".toList⟩) =
      some ((RemotingCommand.create_response_command_with_code
          RemotingSysResponseCode.Success).set_body ⟨none, [], [], []⟩, ⟨false, 0⟩) ∧
    (get_route_info_by_topic ⟨true, 10, false⟩ ⟨false, 0⟩ 12000
        (fun _ => some ⟨none, [], [], []⟩) (fun _ _ => none)
        (some ⟨"orders".toList⟩)).map (fun p => p.1.code) =
      some RemotingSysResponseCode.SystemError :=
  ⟨by decide, by decide⟩

/-- C2: for a query issued while the warming-up flag is still set, if
warm-up gating is enabled and the elapsed time since startup is
strictly below the warm-up window the query is answered with the
service-not-ready response; if the elapsed time has reached the window,
or gating is disabled, the query proceeds to the topology lookup and is
answered `TopicNotExist` when the lookup has nothing for the topic. -/
theorem warmup_window_gate (cfg : NamesrvConfig) (st : ClientRequestProcessorState) (now : Nat)
    (pickup : List Char → Option TopicRouteData)
    (kv : List Char → List Char → Option (List Char))
    (hdr : GetRouteInfoRequestHeader)
    (hflag : st.need_check_namesrv_ready = true) :
    (cfg.need_wait_for_service = true →
      now - st.startup_time_millis < cfg.wait_seconds_for_service * 1000 →
      get_route_info_by_topic cfg st now pickup kv (some hdr) =
        some ((RemotingCommand.create_response_command_with_code
            RemotingSysResponseCode.SystemError).set_remark
            ("name remoting_server not ready".toList), st)) ∧
    ((cfg.wait_seconds_for_service * 1000 ≤ now - st.startup_time_millis ∨
        cfg.need_wait_for_service = false) →
      pickup hdr.topic = none →
      ∃ c, get_route_info_by_topic cfg st now pickup kv (some hdr) = some (c, st) ∧
        c.code = ResponseCode.TopicNotExist) := by
  constructor
  · intro hw hlt
    have hg : gate_intercepts cfg st now = true := by
      simp [gate_intercepts, namesrv_ready, hflag, hw]
      omega
    simp [get_route_info_by_topic, hg]
  · intro hor hpick
    have hg : gate_intercepts cfg st now = false := by
      rcases hor with h | h
      · simp [gate_intercepts, namesrv_ready, hflag]
        omega
      · simp [gate_intercepts, h]
    have hres : get_route_info_by_topic cfg st now pickup kv (some hdr) =
        some ((RemotingCommand.create_response_command_with_code
            ResponseCode.TopicNotExist).set_remark
            ("No topic route info in name remoting_server for the topic:".toList ++
              hdr.topic ++ FAQUrl.suggest_todo FAQUrl.APPLY_TOPIC_URL), st) := by
      simp [get_route_info_by_topic, hg, hpick]
    exact ⟨_, hres, rfl⟩

/-- Witness for C2's theorem: with a ten-second window and gating
enabled, a query at 2 s is answered service-not-ready, and the same
query at 11 s (nothing registered) is answered `TopicNotExist`. -/
theorem warmup_window_gate_witness :
    get_route_info_by_topic ⟨true, 10, false⟩ ⟨true, 0⟩ 2000 (fun _ => none) (fun _ _ => none)
        (some ⟨"orders".toList⟩) =
      some ((RemotingCommand.create_response_command_with_code
          RemotingSysResponseCode.SystemError).set_remark
          ("name remoting_server not ready".toList), ⟨true, 0⟩) ∧
    ∃ c, get_route_info_by_topic ⟨true, 10, false⟩ ⟨true, 0⟩ 11000 (fun _ => none)
        (fun _ _ => none) (some ⟨"orders".toList⟩) = some (c, ⟨true, 0⟩) ∧
      c.code = ResponseCode.TopicNotExist :=
  ⟨(warmup_window_gate ⟨true, 10, false⟩ ⟨true, 0⟩ 2000 (fun _ => none) (fun _ _ => none)
      ⟨"orders".toList⟩ rfl).1 rfl (by decide),
    (warmup_window_gate ⟨true, 10, false⟩ ⟨true, 0⟩ 11000 (fun _ => none) (fun _ _ => none)
      ⟨"orders".toList⟩ rfl).2 (Or.inl (by decide)) rfl⟩

/-- C3, counterexample: the claim asserts that a query issued with the
flag set and the warm-up window elapsed clears the flag regardless of
the lookup outcome.  At a concrete such input whose topology lookup
returns nothing (window 10 s, query at 11 s), the query proceeds
(`TopicNotExist`) but the resulting flag is still `true`: the code only
clears the flag inside the route-found branch. -/
theorem warmup_clear_requires_found_cex :
    (get_route_info_by_topic ⟨true, 10, false⟩ ⟨true, 0⟩ 11000 (fun _ => none)
        (fun _ _ => none) (some ⟨"orders".toList⟩)).map
        (fun p => (p.1.code, p.2.need_check_namesrv_ready)) =
      some (ResponseCode.TopicNotExist, true) := by decide

/-- C3, amended: for every query issued while the warming-up flag is
set whose elapsed time has reached the warm-up window, the query
proceeds past the gate (it is never answered service-not-ready); the
flag is cleared when the topology lookup finds the topic, and remains
set when the lookup returns nothing. -/
theorem warmup_elapsed_proceeds (cfg : NamesrvConfig) (st : ClientRequestProcessorState)
    (now : Nat) (pickup : List Char → Option TopicRouteData)
    (kv : List Char → List Char → Option (List Char))
    (hdr : GetRouteInfoRequestHeader)
    (hflag : st.need_check_namesrv_ready = true)
    (helapsed : cfg.wait_seconds_for_service * 1000 ≤ now - st.startup_time_millis) :
    ∃ c st', get_route_info_by_topic cfg st now pickup kv (some hdr) = some (c, st') ∧
      c.code ≠ RemotingSysResponseCode.SystemError ∧
      (pickup hdr.topic = none → c.code = ResponseCode.TopicNotExist ∧ st' = st) ∧
      (∀ trd, pickup hdr.topic = some trd →
        c.code = RemotingSysResponseCode.Success ∧ st'.need_check_namesrv_ready = false) := by
  have hg : gate_intercepts cfg st now = false := by
    simp [gate_intercepts, namesrv_ready, hflag]
    omega
  cases hpick : pickup hdr.topic with
  | none =>
    have hres : get_route_info_by_topic cfg st now pickup kv (some hdr) =
        some ((RemotingCommand.create_response_command_with_code
            ResponseCode.TopicNotExist).set_remark
            ("No topic route info in name remoting_server for the topic:".toList ++
              hdr.topic ++ FAQUrl.suggest_todo FAQUrl.APPLY_TOPIC_URL), st) := by
      simp [get_route_info_by_topic, hg, hpick]
    refine ⟨_, st, hres, by simp [RemotingCommand.create_response_command_with_code,
      RemotingCommand.set_remark, ResponseCode.TopicNotExist,
      RemotingSysResponseCode.SystemError], fun _ => ⟨rfl, rfl⟩, ?_⟩
    intro trd htrd
    cases htrd
  | some trd =>
    cases horder : cfg.order_message_enable with
    | true =>
      have hres : get_route_info_by_topic cfg st now pickup kv (some hdr) =
          some ((RemotingCommand.create_response_command_with_code
              RemotingSysResponseCode.Success).set_body
              { trd with
                order_topic_conf := kv NAMESPACE_ORDER_TOPIC_CONFIG hdr.topic },
            ⟨false, st.startup_time_millis⟩) := by
        simp [get_route_info_by_topic, hg, hpick, hflag, horder]
      refine ⟨_, _, hres, by simp [RemotingCommand.create_response_command_with_code,
        RemotingCommand.set_body, RemotingSysResponseCode.Success,
        RemotingSysResponseCode.SystemError], ?_, ?_⟩
      · intro hnone; cases hnone
      · intro trd' htrd'
        exact ⟨rfl, rfl⟩
    | false =>
      have hres : get_route_info_by_topic cfg st now pickup kv (some hdr) =
          some ((RemotingCommand.create_response_command_with_code
              RemotingSysResponseCode.Success).set_body trd,
            ⟨false, st.startup_time_millis⟩) := by
        simp [get_route_info_by_topic, hg, hpick, hflag, horder]
      refine ⟨_, _, hres, by simp [RemotingCommand.create_response_command_with_code,
        RemotingCommand.set_body, RemotingSysResponseCode.Success,
        RemotingSysResponseCode.SystemError], ?_, ?_⟩
      · intro hnone; cases hnone
      · intro trd' htrd'
        exact ⟨rfl, rfl⟩

/-- Witness for C3's amended theorem: window 10 s, flag set, query at
11 s with an empty topology proceeds to `TopicNotExist` and leaves the
flag set. -/
theorem warmup_elapsed_proceeds_witness :
    ∃ c st', get_route_info_by_topic ⟨true, 10, false⟩ ⟨true, 0⟩ 11000 (fun _ => none)
        (fun _ _ => none) (some ⟨"orders".toList⟩) = some (c, st') ∧
      c.code ≠ RemotingSysResponseCode.SystemError ∧
      ((fun _ : List Char => (none : Option TopicRouteData)) ("orders".toList) = none →
        c.code = ResponseCode.TopicNotExist ∧ st' = ⟨true, 0⟩) ∧
      (∀ trd, (fun _ : List Char => (none : Option TopicRouteData)) ("orders".toList) =
          some trd →
        c.code = RemotingSysResponseCode.Success ∧ st'.need_check_namesrv_ready = false) :=
  warmup_elapsed_proceeds ⟨true, 10, false⟩ ⟨true, 0⟩ 11000 (fun _ => none) (fun _ _ => none)
    ⟨"orders".toList⟩ rfl (by decide)

/-- C4: the claim asserts the route-query path never panics, even on a
request whose header fails to decode.  The code violates this: the
header decode result is passed to `.expect`, which panics on a
malformed header (modelled here by the embedded function producing
`none` instead of a response). -/
theorem get_route_malformed_header_no_result :
    get_route_info_by_topic ⟨true, 10, false⟩ ⟨true, 0⟩ 0 (fun _ => none) (fun _ _ => none)
      none = none := rfl

/-- C5: whenever the topology lookup returns nothing for the requested
topic and the readiness gate does not intercept the query, the response
is the topic-not-found result, and its human-readable diagnostic names
the requested topic and includes the apply-topic help-link token. -/
theorem topic_not_found_diagnostic (cfg : NamesrvConfig) (st : ClientRequestProcessorState)
    (now : Nat) (pickup : List Char → Option TopicRouteData)
    (kv : List Char → List Char → Option (List Char))
    (hdr : GetRouteInfoRequestHeader)
    (hgate : gate_intercepts cfg st now = false)
    (hpick : pickup hdr.topic = none) :
    ∃ c, get_route_info_by_topic cfg st now pickup kv (some hdr) = some (c, st) ∧
      c.code = ResponseCode.TopicNotExist ∧
      ∃ s1 s2 s3, c.remark = some (s1 ++ hdr.topic ++ s2 ++ FAQUrl.APPLY_TOPIC_URL ++ s3) := by
  have hres : get_route_info_by_topic cfg st now pickup kv (some hdr) =
      some ((RemotingCommand.create_response_command_with_code
          ResponseCode.TopicNotExist).set_remark
          ("No topic route info in name remoting_server for the topic:".toList ++
            hdr.topic ++ FAQUrl.suggest_todo FAQUrl.APPLY_TOPIC_URL), st) := by
    simp [get_route_info_by_topic, hgate, hpick]
  refine ⟨_, hres, rfl,
    "No topic route info in name remoting_server for the topic:".toList,
    " See ".toList, " for further details.".toList, ?_⟩
  simp [RemotingCommand.create_response_command_with_code, RemotingCommand.set_remark,
    FAQUrl.suggest_todo, List.append_assoc]

/-- Witness for C5's theorem: empty topology, gating disabled, query
for topic `orders`. -/
theorem topic_not_found_diagnostic_witness :
    ∃ c, get_route_info_by_topic ⟨false, 0, false⟩ ⟨true, 0⟩ 0 (fun _ => none)
        (fun _ _ => none) (some ⟨"orders".toList⟩) = some (c, ⟨true, 0⟩) ∧
      c.code = ResponseCode.TopicNotExist ∧
      ∃ s1 s2 s3, c.remark =
        some (s1 ++ "orders".toList ++ s2 ++ FAQUrl.APPLY_TOPIC_URL ++ s3) :=
  topic_not_found_diagnostic ⟨false, 0, false⟩ ⟨true, 0⟩ 0 (fun _ => none) (fun _ _ => none)
    ⟨"orders".toList⟩ rfl rfl

/-- C6: when the topology lookup finds a route and order-message
routing is enabled, the response is `Success` with the Order-Topic
Overlay lookup attached to the route's `order_topic_conf` field; an
absent overlay entry is attached as `none` and the query still
succeeds.  With order-message routing disabled, the route is returned
unannotated and the overlay is never consulted (the result does not
depend on the overlay oracle at all). -/
theorem order_topic_conf_attach (cfg : NamesrvConfig) (st : ClientRequestProcessorState)
    (now : Nat) (pickup : List Char → Option TopicRouteData)
    (kv : List Char → List Char → Option (List Char))
    (hdr : GetRouteInfoRequestHeader) (trd : TopicRouteData)
    (hgate : gate_intercepts cfg st now = false)
    (hpick : pickup hdr.topic = some trd) :
    (cfg.order_message_enable = true →
      ∃ st', get_route_info_by_topic cfg st now pickup kv (some hdr) =
        some ((RemotingCommand.create_response_command_with_code
            RemotingSysResponseCode.Success).set_body
            { trd with order_topic_conf := kv NAMESPACE_ORDER_TOPIC_CONFIG hdr.topic },
          st')) ∧
    (cfg.order_message_enable = true → kv NAMESPACE_ORDER_TOPIC_CONFIG hdr.topic = none →
      ∃ st' c, get_route_info_by_topic cfg st now pickup kv (some hdr) = some (c, st') ∧
        c.code = RemotingSysResponseCode.Success ∧
        c.body = some { trd with order_topic_conf := none }) ∧
    (cfg.order_message_enable = false →
      (∃ st', get_route_info_by_topic cfg st now pickup kv (some hdr) =
        some ((RemotingCommand.create_response_command_with_code
            RemotingSysResponseCode.Success).set_body trd, st')) ∧
      ∀ kv', get_route_info_by_topic cfg st now pickup kv (some hdr) =
        get_route_info_by_topic cfg st now pickup kv' (some hdr)) := by
  refine ⟨?_, ?_, ?_⟩
  · intro horder
    refine ⟨if st.need_check_namesrv_ready then ⟨false, st.startup_time_millis⟩ else st, ?_⟩
    simp [get_route_info_by_topic, hgate, hpick, horder]
  · intro horder hkv
    refine ⟨if st.need_check_namesrv_ready then ⟨false, st.startup_time_millis⟩ else st,
      (RemotingCommand.create_response_command_with_code
        RemotingSysResponseCode.Success).set_body { trd with order_topic_conf := none },
      ?_, rfl, rfl⟩
    simp [get_route_info_by_topic, hgate, hpick, horder, hkv]
  · intro horder
    constructor
    · refine ⟨if st.need_check_namesrv_ready then ⟨false, st.startup_time_millis⟩ else st, ?_⟩
      simp [get_route_info_by_topic, hgate, hpick, horder]
    · intro kv'
      simp [get_route_info_by_topic, hgate, hpick, horder]

/-- Witness for C6's theorem: order-message routing enabled, overlay
holding `broker-a` for topic `orders`, one-queue-data route. -/
theorem order_topic_conf_attach_witness :
    ∃ st', get_route_info_by_topic ⟨false, 0, true⟩ ⟨true, 0⟩ 0
        (fun _ => some ⟨none, [⟨"broker-a".toList, 4, 4, 6⟩], [], []⟩)
        (fun _ _ => some ("broker-a".toList)) (some ⟨"orders".toList⟩) =
      some ((RemotingCommand.create_response_command_with_code
          RemotingSysResponseCode.Success).set_body
          ⟨some ("broker-a".toList), [⟨"broker-a".toList, 4, 4, 6⟩], [], []⟩, st') :=
  (order_topic_conf_attach ⟨false, 0, true⟩ ⟨true, 0⟩ 0
    (fun _ => some ⟨none, [⟨"broker-a".toList, 4, 4, 6⟩], [], []⟩)
    (fun _ _ => some ("broker-a".toList)) ⟨"orders".toList⟩
    ⟨none, [⟨"broker-a".toList, 4, 4, 6⟩], [], []⟩ rfl rfl).1 rfl

/-- C7: a query answered with the service-not-ready signal and a query
answered with the topic-does-not-exist signal always carry distinct
response codes, for every pair of inputs producing those two
outcomes. -/
theorem not_ready_not_found_codes_distinct (cfg₁ : NamesrvConfig)
    (st₁ : ClientRequestProcessorState) (now₁ : Nat)
    (pickup₁ : List Char → Option TopicRouteData)
    (kv₁ : List Char → List Char → Option (List Char)) (hdr₁ : GetRouteInfoRequestHeader)
    (cfg₂ : NamesrvConfig) (st₂ : ClientRequestProcessorState) (now₂ : Nat)
    (pickup₂ : List Char → Option TopicRouteData)
    (kv₂ : List Char → List Char → Option (List Char)) (hdr₂ : GetRouteInfoRequestHeader)
    (hg₁ : gate_intercepts cfg₁ st₁ now₁ = true)
    (hg₂ : gate_intercepts cfg₂ st₂ now₂ = false)
    (hp₂ : pickup₂ hdr₂.topic = none) :
    ∃ c₁ s₁ c₂ s₂,
      get_route_info_by_topic cfg₁ st₁ now₁ pickup₁ kv₁ (some hdr₁) = some (c₁, s₁) ∧
      get_route_info_by_topic cfg₂ st₂ now₂ pickup₂ kv₂ (some hdr₂) = some (c₂, s₂) ∧
      c₁.code ≠ c₂.code := by
  have h₁ : get_route_info_by_topic cfg₁ st₁ now₁ pickup₁ kv₁ (some hdr₁) =
      some ((RemotingCommand.create_response_command_with_code
          RemotingSysResponseCode.SystemError).set_remark
          ("name remoting_server not ready".toList), st₁) := by
    simp [get_route_info_by_topic, hg₁]
  have h₂ : get_route_info_by_topic cfg₂ st₂ now₂ pickup₂ kv₂ (some hdr₂) =
      some ((RemotingCommand.create_response_command_with_code
          ResponseCode.TopicNotExist).set_remark
          ("No topic route info in name remoting_server for the topic:".toList ++
            hdr₂.topic ++ FAQUrl.suggest_todo FAQUrl.APPLY_TOPIC_URL), st₂) := by
    simp [get_route_info_by_topic, hg₂, hp₂]
  refine ⟨_, _, _, _, h₁, h₂, ?_⟩
  simp [RemotingCommand.create_response_command_with_code, RemotingCommand.set_remark,
    RemotingSysResponseCode.SystemError, ResponseCode.TopicNotExist]

/-- Witness for C7's theorem: a gated early query beside an
empty-topology query with gating disabled. -/
theorem not_ready_not_found_codes_distinct_witness :
    ∃ c₁ s₁ c₂ s₂,
      get_route_info_by_topic ⟨true, 10, false⟩ ⟨true, 0⟩ 0 (fun _ => none) (fun _ _ => none)
          (some ⟨"orders".toList⟩) = some (c₁, s₁) ∧
      get_route_info_by_topic ⟨false, 0, false⟩ ⟨true, 0⟩ 0 (fun _ => none) (fun _ _ => none)
          (some ⟨"orders".toList⟩) = some (c₂, s₂) ∧
      c₁.code ≠ c₂.code :=
  not_ready_not_found_codes_distinct ⟨true, 10, false⟩ ⟨true, 0⟩ 0 (fun _ => none)
    (fun _ _ => none) ⟨"orders".toList⟩ ⟨false, 0, false⟩ ⟨true, 0⟩ 0 (fun _ => none)
    (fun _ _ => none) ⟨"orders".toList⟩ (by decide) rfl rfl

/-- C8: hex round-trip — for every non-empty byte sequence `src`,
`string_to_bytes (bytes_to_string src) = some src`; moreover
`bytes_to_string src` has exactly `2 * len src` characters, all drawn
from the sixteen uppercase hexadecimal digits. -/
theorem hex_roundtrip (src : List Nat) (hb : ∀ b ∈ src, b < 256) :
    (src ≠ [] → string_to_bytes (bytes_to_string src) = some src) ∧
    (bytes_to_string src).length = 2 * src.length ∧
    ∀ c ∈ bytes_to_string src, c ∈ HEX_ARRAY := by
  refine ⟨?_, bytes_to_string_length src, bytes_to_string_mem src hb⟩
  intro hne
  have hempty : (bytes_to_string src).isEmpty = false := by
    cases src with
    | nil => exact absurd rfl hne
    | cons b rest => rfl
  have hup := bytes_to_string_upper src hb
  have hlen := bytes_to_string_length src
  simp only [string_to_bytes, hempty, Bool.false_eq_true, if_false, hup, hlen]
  rw [Nat.mul_div_cancel_left _ (by omega)]
  apply string_to_bytes_loop_inverse src 0 (bytes_to_string src) hb
  intro j hj
  simp

/-- Witness for C8's theorem at the byte sequence of the repository's
own test (`[0x41, 0x42, 0x43]`, hex `"414243"`). -/
theorem hex_roundtrip_witness :
    string_to_bytes (bytes_to_string [65, 66, 67]) = some [65, 66, 67] ∧
    (bytes_to_string [65, 66, 67]).length = 2 * [65, 66, 67].length :=
  ⟨(hex_roundtrip [65, 66, 67] (by decide)).1 (by decide),
    (hex_roundtrip [65, 66, 67] (by decide)).2.1⟩

/-- C9: for every `u64` offset, `offset_to_file_name` yields exactly 20
characters — the decimal representation of the offset left-padded with
`'0'` (the padding never truncates, and every `u64` has at most 20
decimal digits). -/
theorem offset_to_file_name_padded (offset : Nat) (h : offset < 2 ^ 64) :
    (offset_to_file_name offset).length = 20 ∧
    ∃ k, offset_to_file_name offset = List.replicate k '0' ++ decimalRepr offset := by
  have h20 : (decimalRepr offset).length ≤ 20 := by
    apply decimalRepr_length_le
    calc offset < 2 ^ 64 := h
      _ < 10 ^ 20 := by norm_num
  refine ⟨?_, _, rfl⟩
  simp only [offset_to_file_name, List.length_append, List.length_replicate]
  omega

/-- Witness for C9's theorem at the offset of the repository's own test
(`offset_to_file_name(123)` is `"00000000000000000123"`). -/
theorem offset_to_file_name_padded_witness :
    (offset_to_file_name 123).length = 20 ∧
    ∃ k, offset_to_file_name 123 = List.replicate k '0' ++ decimalRepr 123 :=
  offset_to_file_name_padded 123 (by norm_num)

/-- C10: `time_millis_to_human_string` is partial at its public
interface: every timestamp within chrono's representable year range is
formatted as `%Y%m%d%H%M%S%3f` (in particular the repository's own test
value `1625140800000` yields `"20210701120000000"`), but for the
out-of-range input `i64::MAX` the internal `Option` is `None` and the
Rust function panics on `unwrap` (modelled by the result `none`)
instead of returning a string. -/
theorem time_millis_to_human_string_behavior :
    (∀ t : Int, -262144 ≤ chrono_year t → chrono_year t ≤ 262143 →
      time_millis_to_human_string t = some (time_millis_format t)) ∧
    time_millis_to_human_string 1625140800000 = some ("20210701120000000".toList) ∧
    time_millis_to_human_string 9223372036854775807 = none := by
  refine ⟨?_, by decide, by decide⟩
  intro t h1 h2
  unfold time_millis_to_human_string from_timestamp_millis
  rw [if_pos ⟨h1, h2⟩]
  rfl

/-- Witness for C10's theorem at the epoch timestamp `0`
(year 1970, inside chrono's range). -/
theorem time_millis_to_human_string_behavior_witness :
    time_millis_to_human_string 0 = some (time_millis_format 0) :=
  time_millis_to_human_string_behavior.1 0 (by decide) (by decide)
